import Mathlib

/-!
Verification of the beacon consensus engine handle
(`crates/consensus/beacon/src/engine/handle.rs`).

The handle is the client-facing frontend of the spawned beacon consensus
engine task.  Callers build a request message together with a fresh oneshot
correlation channel, push the message onto the engine task's unbounded
mailbox, and await the correlation channel for the reply.

Shallow embedding conventions:
* A oneshot correlation channel is denoted by the value that will ever be
  written to it: `Option V`, where `none` means the producer half was
  dropped without a value (the receiver observes `RecvError`).
* The engine task's mailbox is a `World`: an open/closed flag, the list of
  delivered messages, and a counter allocating fresh channel identifiers.
* The engine task itself is out of scope of the source file; each awaiting
  operation is parametrised by what the engine task eventually writes into
  the channels created for that call.  If the mailbox send fails, the
  message - and the producer half it carries - is dropped, so the channel
  closes without a value regardless of that parameter.
-/

/-- Identifier of a (oneshot or unbounded) channel endpoint. -/
abbrev ChanId := Nat

/-- External type `reth_rpc_types::engine::ExecutionPayload` (opaque here). -/
structure ExecutionPayload where
  blockHash : Nat
deriving DecidableEq, Repr

/-- External type `reth_rpc_types::engine::CancunPayloadFields` (opaque here). -/
structure CancunPayloadFields where
  parentBeaconBlockRoot : Nat
deriving DecidableEq, Repr

/-- External type `reth_rpc_types::engine::ForkchoiceState` (opaque here). -/
structure ForkchoiceState where
  headBlockHash : Nat
  safeBlockHash : Nat
  finalizedBlockHash : Nat
deriving DecidableEq, Repr

/-- External type `reth_rpc_types::engine::PayloadStatus` (opaque here). -/
structure PayloadStatus where
  statusCode : Nat
deriving DecidableEq, Repr

/-- Identifier of a payload-build job. -/
structure PayloadId where
  idValue : Nat
deriving DecidableEq, Repr

/-- External type `reth_rpc_types::engine::ForkchoiceUpdated`: the validity
status plus, if a build was requested, the identifier of the built payload. -/
structure ForkchoiceUpdated where
  payloadStatus : PayloadStatus
  payloadId : Option PayloadId
deriving DecidableEq, Repr

/-- An engine-internal event (`BeaconConsensusEngineEvent`, opaque here). -/
structure BeaconConsensusEngineEvent where
  eventCode : Nat
deriving DecidableEq, Repr

/-- An internal error of the engine task (`reth_interfaces::RethError`,
opaque here). -/
structure RethError where
  code : Nat
deriving DecidableEq, Repr

/-- `reth_interfaces::RethResult`. -/
abbrev RethResult (α : Type) := Except RethError α

/-- Modelled from the spec: the error type of the deferred (phase-2) result
of a fork-choice update; its definition lives in `engine/message.rs`, which
is outside the provided source.  `ChannelClosed` is the distinct propagated
error produced when the phase-2 channel is closed without a value. -/
inductive ForkchoiceUpdateError where
  | ChannelClosed
  | UpdatedInvalidPayloadAttributes
deriving DecidableEq, Repr

/-- Modelled from the spec: `OnForkChoiceUpdated` (defined in
`engine/message.rs`, outside the provided source) is the deferred completion
token returned as the payload of a successful phase-1 reply.  It is either
immediately ready with a result, or wraps a second correlation channel B for
the background payload-build job. -/
inductive OnForkChoiceUpdated where
  | ready (result : Except ForkchoiceUpdateError ForkchoiceUpdated)
  | pending (rxB : ChanId)
deriving Repr

/-- Error type of `new_payload` (`BeaconOnNewPayloadError`; its definition is
outside the provided source, the variants used by `handle.rs` are modelled
from the spec: infrastructure failure vs. passed-through domain error). -/
inductive BeaconOnNewPayloadError where
  | EngineUnavailable
  | Internal (e : RethError)
deriving DecidableEq, Repr

/-- Error type of `fork_choice_updated` (`BeaconForkChoiceUpdateError`; its
definition is outside the provided source, the variants used by `handle.rs`
are modelled from the spec: infrastructure failure, mapped phase-2 error,
mapped internal domain error). -/
inductive BeaconForkChoiceUpdateError where
  | ForkchoiceUpdateError (e : ForkchoiceUpdateError)
  | Internal (e : RethError)
  | EngineUnavailable
deriving DecidableEq, Repr

/-- The request message union `BeaconEngineMessage`, parametrised by the
engine's payload-attributes type.  Variants and payloads are as constructed
in `handle.rs`; reply-expecting variants carry the identifier of the fresh
correlation channel's producer half. -/
inductive BeaconEngineMessage (A : Type) where
  | NewPayload (payload : ExecutionPayload)
      (cancunFields : Option CancunPayloadFields) (tx : ChanId)
  | ForkchoiceUpdated (state : ForkchoiceState)
      (payloadAttrs : Option A) (tx : ChanId)
  | TransitionConfigurationExchanged
  | EventListener (tx : ChanId)
deriving DecidableEq

/-- The channel identifiers carried inside a message. -/
def BeaconEngineMessage.chanIds {A : Type} : BeaconEngineMessage A → List ChanId
  | .NewPayload _ _ tx => [tx]
  | .ForkchoiceUpdated _ _ tx => [tx]
  | .TransitionConfigurationExchanged => []
  | .EventListener tx => [tx]

/-- The state of the engine task's mailbox and the channel allocator:
whether the mailbox still has a live consumer, the messages delivered so
far, and the next fresh channel identifier. -/
structure World (A : Type) where
  mailOpen : Bool
  queue : List (BeaconEngineMessage A)
  nextId : ChanId
deriving DecidableEq

/-- Well-formedness: every channel identifier already handed out inside a
delivered message is below the allocator counter (so fresh identifiers are
never reused). -/
def World.WF {A : Type} (w : World A) : Prop :=
  ∀ m ∈ w.queue, ∀ c ∈ m.chanIds, c < w.nextId

instance {A : Type} [DecidableEq A] (w : World A) : Decidable w.WF := by
  unfold World.WF; infer_instance

/-- `tokio::sync::oneshot::channel()`: allocates a fresh channel identifier. -/
def oneshot_channel {A : Type} (w : World A) : ChanId × World A :=
  (w.nextId, { w with nextId := w.nextId + 1 })

/-- `tokio::sync::oneshot::Receiver::await`, denotationally: the receiver is
characterised by the value ever written to the channel; `none` (producer
dropped without writing) yields the receive error. -/
def oneshot_recv {V : Type} (outcome : Option V) : Except Unit V :=
  match outcome with
  | some v => .ok v
  | none => .error ()

/-- `tokio::sync::mpsc::UnboundedSender<BeaconEngineMessage>`: a producer
handle onto the engine task's mailbox. -/
structure UnboundedSender (A : Type) where
  target : Nat
deriving DecidableEq

/-- `UnboundedSender::clone`: another producer handle onto the same mailbox. -/
def UnboundedSender.clone {A : Type} (s : UnboundedSender A) : UnboundedSender A :=
  { target := s.target }

/-- `UnboundedSender::send`: if the mailbox still has a live consumer the
message is delivered (appended) and the send succeeds; otherwise the message
is dropped - together with any channel producer half it carries - and the
send reports failure. -/
def UnboundedSender.send {A : Type} (_s : UnboundedSender A) (w : World A)
    (m : BeaconEngineMessage A) : World A × Bool :=
  if w.mailOpen then ({ w with queue := w.queue ++ [m] }, true) else (w, false)

/-- `BeaconConsensusEngineHandle`: the shareable frontend; it holds only the
mailbox sender. -/
structure BeaconConsensusEngineHandle (A : Type) where
  to_engine : UnboundedSender A
deriving DecidableEq

/-- `impl Clone for BeaconConsensusEngineHandle`:
`Self { to_engine: self.to_engine.clone() }`. -/
def BeaconConsensusEngineHandle.clone {A : Type}
    (h : BeaconConsensusEngineHandle A) : BeaconConsensusEngineHandle A :=
  { to_engine := h.to_engine.clone }

/-- `BeaconConsensusEngineHandle::new`. -/
def BeaconConsensusEngineHandle.new {A : Type} (to_engine : UnboundedSender A) :
    BeaconConsensusEngineHandle A :=
  { to_engine := to_engine }

/-- `BeaconConsensusEngineHandle::new_payload`: creates a fresh oneshot
channel, sends `NewPayload { payload, cancun_fields, tx }` (discarding the
send result), then awaits the receiver, turning a receive error into
`EngineUnavailable` and unwrapping the engine's reply unchanged otherwise.
`engineWriteA` is what the engine task writes into the correlation channel
if it receives the message (`none`: it drops the channel without a value). -/
def new_payload {A : Type} (h : BeaconConsensusEngineHandle A) (w : World A)
    (payload : ExecutionPayload) (cancun_fields : Option CancunPayloadFields)
    (engineWriteA : Option (Except BeaconOnNewPayloadError PayloadStatus)) :
    Except BeaconOnNewPayloadError PayloadStatus × World A :=
  let ch := oneshot_channel w
  let s := h.to_engine.send ch.2
    (BeaconEngineMessage.NewPayload payload cancun_fields ch.1)
  let rxOutcome := if s.2 then engineWriteA else none
  let res :=
    match oneshot_recv rxOutcome with
    | .error _ => .error BeaconOnNewPayloadError.EngineUnavailable
    | .ok r => r
  (res, s.1)

/-- `BeaconConsensusEngineHandle::send_fork_choice_updated`: creates a fresh
oneshot channel, sends `ForkchoiceUpdated { state, payload_attrs, tx }`
(discarding the send result) and returns the receiver, denoted by the value
that will ever arrive on it: the engine task's phase-1 write `engineWriteA`
if the message was delivered, `none` otherwise. -/
def send_fork_choice_updated {A : Type} (h : BeaconConsensusEngineHandle A)
    (w : World A) (state : ForkchoiceState) (payload_attrs : Option A)
    (engineWriteA : Option (RethResult OnForkChoiceUpdated)) :
    Option (RethResult OnForkChoiceUpdated) × World A :=
  let ch := oneshot_channel w
  let s := h.to_engine.send ch.2
    (BeaconEngineMessage.ForkchoiceUpdated state payload_attrs ch.1)
  ((if s.2 then engineWriteA else none), s.1)

/-- Modelled from the spec: awaiting the deferred completion token
(`impl Future for OnForkChoiceUpdated` in `engine/message.rs`, outside the
provided source).  A ready token resolves immediately with its stored
result; a pending token awaits channel B (`engineWriteB` is what the engine
task writes there): closed without a value yields the distinct propagated
error, a value yields the final `ForkchoiceUpdated` result. -/
def OnForkChoiceUpdated.awaited (t : OnForkChoiceUpdated)
    (engineWriteB : Option ForkchoiceUpdated) :
    Except ForkchoiceUpdateError ForkchoiceUpdated :=
  match t with
  | .ready r => r
  | .pending _ =>
    match engineWriteB with
    | none => .error ForkchoiceUpdateError.ChannelClosed
    | some v => .ok v

/-- `BeaconConsensusEngineHandle::fork_choice_updated`: two-phase protocol.
Phase 1: send the request and await the correlation channel, mapping a
receive error to `EngineUnavailable` and a domain error into
`BeaconForkChoiceUpdateError`.  Phase 2: await the deferred completion
token, mapping its error into `BeaconForkChoiceUpdateError`. -/
def fork_choice_updated {A : Type} (h : BeaconConsensusEngineHandle A)
    (w : World A) (state : ForkchoiceState) (payload_attrs : Option A)
    (engineWriteA : Option (RethResult OnForkChoiceUpdated))
    (engineWriteB : Option ForkchoiceUpdated) :
    Except BeaconForkChoiceUpdateError ForkchoiceUpdated × World A :=
  let s := send_fork_choice_updated h w state payload_attrs engineWriteA
  let res :=
    match oneshot_recv s.1 with
    | .error _ => .error BeaconForkChoiceUpdateError.EngineUnavailable
    | .ok (.error e) => .error (BeaconForkChoiceUpdateError.Internal e)
    | .ok (.ok token) =>
      match token.awaited engineWriteB with
      | .error e => .error (BeaconForkChoiceUpdateError.ForkchoiceUpdateError e)
      | .ok fcu => .ok fcu
  (res, s.2)

/-- `BeaconConsensusEngineHandle::transition_configuration_exchanged`: a
single best-effort send whose result is discarded; the operation returns
unit unconditionally. -/
def transition_configuration_exchanged {A : Type}
    (h : BeaconConsensusEngineHandle A) (w : World A) : Unit × World A :=
  let s := h.to_engine.send w BeaconEngineMessage.TransitionConfigurationExchanged
  ((), s.1)

/-- `tokio_stream::wrappers::UnboundedReceiverStream`: the consumer half of
an unbounded subscriber channel, wrapped as a stream. -/
structure UnboundedReceiverStream where
  chan : ChanId
deriving DecidableEq, Repr

/-- The values an event stream produces, denotationally: exactly the events
the engine task sends on the stream's subscriber channel
(`engineSends c` = the events the engine task ever sends on channel `c`). -/
def UnboundedReceiverStream.produced (st : UnboundedReceiverStream)
    (engineSends : ChanId → List BeaconConsensusEngineEvent) :
    List BeaconConsensusEngineEvent :=
  engineSends st.chan

/-- `tokio::sync::mpsc::unbounded_channel()`: allocates a fresh channel
identifier from the same allocator. -/
def unbounded_channel {A : Type} (w : World A) : ChanId × World A :=
  (w.nextId, { w with nextId := w.nextId + 1 })

/-- `BeaconConsensusEngineHandle::event_listener`: creates a fresh unbounded
subscriber channel, sends `EventListener(tx)` (discarding the send result)
and returns the consumer half wrapped as a stream. -/
def event_listener {A : Type} (h : BeaconConsensusEngineHandle A)
    (w : World A) : UnboundedReceiverStream × World A :=
  let ch := unbounded_channel w
  let s := h.to_engine.send ch.2 (BeaconEngineMessage.EventListener ch.1)
  (UnboundedReceiverStream.mk ch.1, s.1)

/-- Modelled from the spec: the engine task sends events only on subscriber
channels whose `EventListener` registration message it actually received
from the mailbox (the registration of an undelivered message is unknown to
it, so such a channel carries no events). -/
def EngineSendsOnlyRegistered {A : Type} (queue : List (BeaconEngineMessage A))
    (engineSends : ChanId → List BeaconConsensusEngineEvent) : Prop :=
  ∀ c, BeaconEngineMessage.EventListener c ∉ queue → engineSends c = []

/-- Modelled from the spec: the engine-task contract that when no
payload-build attributes were supplied, any successful phase-1 reply token
is immediately ready (the "no build requested" outcome). -/
def EngineNoBuildContract {A : Type} (payload_attrs : Option A)
    (engineWriteA : Option (RethResult OnForkChoiceUpdated)) : Prop :=
  payload_attrs = none →
    ∀ t, engineWriteA = some (.ok t) → ∃ r, t = OnForkChoiceUpdated.ready r

/-- One send was performed onto the mailbox: if the mailbox was open exactly
the message `m` was appended, and if it was closed the queue is unchanged
(the failed send is discarded). -/
def OneSend {A : Type} (w w2 : World A) (m : BeaconEngineMessage A) : Prop :=
  (w.mailOpen = true → w2.queue = w.queue ++ [m]) ∧
    (w.mailOpen = false → w2.queue = w.queue)

/-- The allocator's next identifier occurs in no already-delivered message. -/
def FreshTx {A : Type} (w : World A) : Prop :=
  ∀ m ∈ w.queue, w.nextId ∉ m.chanIds

/-- The world after allocating a fresh channel and sending one message. -/
theorem world_after_send_alloc {A : Type} (s : UnboundedSender A) (w : World A)
    (m : BeaconEngineMessage A) :
    (s.send { w with nextId := w.nextId + 1 } m).1
      = { mailOpen := w.mailOpen
          queue := if w.mailOpen then w.queue ++ [m] else w.queue
          nextId := w.nextId + 1 } := by
  cases hb : w.mailOpen <;> simp [UnboundedSender.send, hb]

/-- Allocating a fresh channel and sending one message whose channel
identifiers do not exceed the allocator counter preserves well-formedness. -/
theorem WF_after_send_alloc {A : Type} (s : UnboundedSender A) (w : World A)
    (m : BeaconEngineMessage A) (hwf : w.WF)
    (hids : ∀ c ∈ m.chanIds, c ≤ w.nextId) :
    (s.send { w with nextId := w.nextId + 1 } m).1.WF := by
  rw [world_after_send_alloc]
  intro m2 hm2 c hc
  by_cases hb : w.mailOpen = true
  · rw [if_pos hb] at hm2
    rcases List.mem_append.mp hm2 with h1 | h1
    · exact lt_trans (hwf m2 h1 c hc) (Nat.lt_succ_self _)
    · cases List.mem_singleton.mp h1
      exact Nat.lt_succ_of_le (hids c hc)
  · rw [if_neg hb] at hm2
    exact lt_trans (hwf m2 hm2 c hc) (Nat.lt_succ_self _)

/-- Claim C1: for every call to fork_choice_updated, if the phase-1
correlation channel yields a successful reply holding a deferred (pending)
completion token and the phase-2 channel is then closed without a value, the
overall call returns the phase-2-specific propagated error; it never returns
a result derived only from the phase-1 reply. -/
theorem c1_fork_choice_phase2_closed_propagates {A : Type}
    (h : BeaconConsensusEngineHandle A) (w : World A) (state : ForkchoiceState)
    (payload_attrs : Option A) (rxB : ChanId) (hopen : w.mailOpen = true) :
    (fork_choice_updated h w state payload_attrs
        (some (.ok (OnForkChoiceUpdated.pending rxB))) none).1
      = .error (BeaconForkChoiceUpdateError.ForkchoiceUpdateError
          ForkchoiceUpdateError.ChannelClosed) := by
  simp [fork_choice_updated, send_fork_choice_updated, oneshot_channel,
    UnboundedSender.send, oneshot_recv, OnForkChoiceUpdated.awaited, hopen]

/-- Witness for C1 at a concrete call. -/
theorem c1_fork_choice_phase2_closed_propagates_witness :
    (World.mk true [] 0 : World Unit).mailOpen = true ∧
    (fork_choice_updated (BeaconConsensusEngineHandle.new ⟨0⟩)
        (World.mk true [] 0 : World Unit) (ForkchoiceState.mk 1 2 3) none
        (some (.ok (OnForkChoiceUpdated.pending 5))) none).1
      = .error (BeaconForkChoiceUpdateError.ForkchoiceUpdateError
          ForkchoiceUpdateError.ChannelClosed) :=
  ⟨rfl, c1_fork_choice_phase2_closed_propagates _ _ _ _ _ rfl⟩

/-- Claim C2: for every reply-expecting request, if the engine task drops
the correlation channel without writing a reply, the awaiting operation
returns the EngineUnavailable error of that operation. -/
theorem c2_dropped_reply_channel_engine_unavailable {A : Type}
    (h : BeaconConsensusEngineHandle A) (w : World A)
    (payload : ExecutionPayload) (cancun_fields : Option CancunPayloadFields)
    (state : ForkchoiceState) (payload_attrs : Option A)
    (engineWriteB : Option ForkchoiceUpdated) (hopen : w.mailOpen = true) :
    (new_payload h w payload cancun_fields none).1
      = .error BeaconOnNewPayloadError.EngineUnavailable ∧
    (fork_choice_updated h w state payload_attrs none engineWriteB).1
      = .error BeaconForkChoiceUpdateError.EngineUnavailable := by
  constructor <;>
    simp [new_payload, fork_choice_updated, send_fork_choice_updated,
      oneshot_channel, UnboundedSender.send, oneshot_recv, hopen]

/-- Witness for C2 at a concrete call. -/
theorem c2_dropped_reply_channel_engine_unavailable_witness :
    (World.mk true [] 0 : World Unit).mailOpen = true ∧
    ((new_payload (BeaconConsensusEngineHandle.new ⟨0⟩)
        (World.mk true [] 0 : World Unit) (ExecutionPayload.mk 7) none none).1
        = .error BeaconOnNewPayloadError.EngineUnavailable ∧
      (fork_choice_updated (BeaconConsensusEngineHandle.new ⟨0⟩)
        (World.mk true [] 0 : World Unit) (ForkchoiceState.mk 1 2 3) none none
        none).1
        = .error BeaconForkChoiceUpdateError.EngineUnavailable) :=
  ⟨rfl, c2_dropped_reply_channel_engine_unavailable _ _ (ExecutionPayload.mk 7)
    none (ForkchoiceState.mk 1 2 3) none none rfl⟩

/-- Claim C3: for every payload and optional cancun fields, if the engine
task writes a value V into the correlation channel of a NewPayload request
before dropping it, new_payload resolves with exactly V, unwrapped from the
channel with no reinterpretation. -/
theorem c3_new_payload_pass_through {A : Type}
    (h : BeaconConsensusEngineHandle A) (w : World A)
    (payload : ExecutionPayload) (cancun_fields : Option CancunPayloadFields)
    (v : Except BeaconOnNewPayloadError PayloadStatus)
    (hopen : w.mailOpen = true) :
    (new_payload h w payload cancun_fields (some v)).1 = v := by
  simp [new_payload, oneshot_channel, UnboundedSender.send, oneshot_recv, hopen]

/-- Witness for C3 at a concrete call. -/
theorem c3_new_payload_pass_through_witness :
    (World.mk true [] 0 : World Unit).mailOpen = true ∧
    (new_payload (BeaconConsensusEngineHandle.new ⟨0⟩)
        (World.mk true [] 0 : World Unit) (ExecutionPayload.mk 7) none
        (some (.ok (PayloadStatus.mk 2)))).1 = .ok (PayloadStatus.mk 2) :=
  ⟨rfl, c3_new_payload_pass_through _ _ _ _ _ rfl⟩

/-- Claim C4: for every call to fork_choice_updated, if the phase-1 reply is
a domain error rather than a deferred token, the call returns that error
mapped into the fork-choice update error type, immediately, and the phase-2
deferred token is never awaited (the result is the same for every phase-2
channel outcome). -/
theorem c4_phase1_domain_error_immediate {A : Type}
    (h : BeaconConsensusEngineHandle A) (w : World A) (state : ForkchoiceState)
    (payload_attrs : Option A) (e : RethError)
    (engineWriteB : Option ForkchoiceUpdated) (hopen : w.mailOpen = true) :
    (fork_choice_updated h w state payload_attrs (some (.error e))
        engineWriteB).1
      = .error (BeaconForkChoiceUpdateError.Internal e) := by
  simp [fork_choice_updated, send_fork_choice_updated, oneshot_channel,
    UnboundedSender.send, oneshot_recv, hopen]

/-- Witness for C4 at a concrete call. -/
theorem c4_phase1_domain_error_immediate_witness :
    (World.mk true [] 0 : World Unit).mailOpen = true ∧
    (fork_choice_updated (BeaconConsensusEngineHandle.new ⟨0⟩)
        (World.mk true [] 0 : World Unit) (ForkchoiceState.mk 1 2 3) none
        (some (.error (RethError.mk 42)))
        (some (ForkchoiceUpdated.mk (PayloadStatus.mk 1) none))).1
      = .error (BeaconForkChoiceUpdateError.Internal (RethError.mk 42)) :=
  ⟨rfl, c4_phase1_domain_error_immediate _ _ _ _ _ _ rfl⟩

/-- Claim C5: for every call to fork_choice_updated with no payload-build
attributes, under the engine-task contract that the phase-1 reply token is
then immediately ready, the overall result does not depend on the phase-2
channel at all, so the second await step never blocks beyond an immediate
resolution. -/
theorem c5_no_build_resolves_immediately {A : Type}
    (h : BeaconConsensusEngineHandle A) (w : World A) (state : ForkchoiceState)
    (payload_attrs : Option A)
    (engineWriteA : Option (RethResult OnForkChoiceUpdated))
    (hattrs : payload_attrs = none)
    (hc : EngineNoBuildContract payload_attrs engineWriteA)
    (b b2 : Option ForkchoiceUpdated) :
    fork_choice_updated h w state payload_attrs engineWriteA b
      = fork_choice_updated h w state payload_attrs engineWriteA b2 := by
  cases hm : w.mailOpen with
  | false =>
    simp [fork_choice_updated, send_fork_choice_updated, oneshot_channel,
      UnboundedSender.send, oneshot_recv, hm]
  | true =>
    cases hA : engineWriteA with
    | none =>
      simp [fork_choice_updated, send_fork_choice_updated, oneshot_channel,
        UnboundedSender.send, oneshot_recv, hm]
    | some ra =>
      cases ra with
      | error e =>
        simp [fork_choice_updated, send_fork_choice_updated, oneshot_channel,
          UnboundedSender.send, oneshot_recv, hm]
      | ok t =>
        obtain ⟨r, rfl⟩ := hc hattrs t hA
        simp [fork_choice_updated, send_fork_choice_updated, oneshot_channel,
          UnboundedSender.send, oneshot_recv, OnForkChoiceUpdated.awaited, hm]

/-- Witness for C5 at a concrete call. -/
theorem c5_no_build_resolves_immediately_witness :
    ((none : Option Unit) = none) ∧
    EngineNoBuildContract (none : Option Unit)
      (some (.ok (OnForkChoiceUpdated.ready
        (.ok (ForkchoiceUpdated.mk (PayloadStatus.mk 1) none))))) ∧
    fork_choice_updated (BeaconConsensusEngineHandle.new ⟨0⟩)
        (World.mk true [] 0 : World Unit) (ForkchoiceState.mk 1 2 3) none
        (some (.ok (OnForkChoiceUpdated.ready
          (.ok (ForkchoiceUpdated.mk (PayloadStatus.mk 1) none))))) none
      = fork_choice_updated (BeaconConsensusEngineHandle.new ⟨0⟩)
        (World.mk true [] 0 : World Unit) (ForkchoiceState.mk 1 2 3) none
        (some (.ok (OnForkChoiceUpdated.ready
          (.ok (ForkchoiceUpdated.mk (PayloadStatus.mk 1) none)))))
        (some (ForkchoiceUpdated.mk (PayloadStatus.mk 9) none)) := by
  refine ⟨rfl, ?_, ?_⟩
  · intro _ t ht
    simp only [Option.some.injEq, Except.ok.injEq] at ht
    exact ⟨_, ht.symm⟩
  · refine c5_no_build_resolves_immediately _ _ _ _ _ rfl ?_ _ _
    intro _ t ht
    simp only [Option.some.injEq, Except.ok.injEq] at ht
    exact ⟨_, ht.symm⟩

/-- Claim C6: transition_configuration_exchanged always completes
successfully and returns unit for every caller, even when the mailbox has no
live consumer; in the closed-mailbox case the failed send leaves no
observable trace at all. -/
theorem c6_transition_configuration_exchanged_always_succeeds {A : Type}
    (h : BeaconConsensusEngineHandle A) (w : World A) :
    (transition_configuration_exchanged h w).1 = () ∧
      (w.mailOpen = false → (transition_configuration_exchanged h w).2 = w) := by
  refine ⟨rfl, fun hm => ?_⟩
  simp [transition_configuration_exchanged, UnboundedSender.send, hm]

/-- Witness for C6 at a concrete call on a closed mailbox. -/
theorem c6_transition_configuration_exchanged_always_succeeds_witness :
    (transition_configuration_exchanged (BeaconConsensusEngineHandle.new ⟨0⟩)
        (World.mk false [] 0 : World Unit)).1 = () ∧
      ((World.mk false [] 0 : World Unit).mailOpen = false →
        (transition_configuration_exchanged (BeaconConsensusEngineHandle.new ⟨0⟩)
          (World.mk false [] 0 : World Unit)).2 = World.mk false [] 0) :=
  c6_transition_configuration_exchanged_always_succeeds _ _

/-- Claim C7: event_listener always returns a stream; when the mailbox is
closed the registration message is silently discarded and (under the
engine-task contract of sending only on registered channels) the stream
never produces a value; when registration succeeds the stream yields exactly
the events the engine task sends on the freshly created subscriber channel. -/
theorem c7_event_listener_stream {A : Type} (h : BeaconConsensusEngineHandle A)
    (w : World A) (engineSends : ChanId → List BeaconConsensusEngineEvent)
    (hwf : w.WF) :
    (event_listener h w).1 = UnboundedReceiverStream.mk w.nextId ∧
    (w.mailOpen = false →
      (event_listener h w).2.queue = w.queue ∧
      (EngineSendsOnlyRegistered w.queue engineSends →
        (event_listener h w).1.produced engineSends = [])) ∧
    (w.mailOpen = true →
      (event_listener h w).2.queue
          = w.queue ++ [BeaconEngineMessage.EventListener w.nextId] ∧
      (event_listener h w).1.produced engineSends = engineSends w.nextId) := by
  have hfresh : BeaconEngineMessage.EventListener (A := A) w.nextId ∉ w.queue := by
    intro hmem
    exact Nat.lt_irrefl _
      (hwf _ hmem w.nextId (by simp [BeaconEngineMessage.chanIds]))
  refine ⟨rfl, fun hm => ⟨?_, fun heng => ?_⟩, fun hm => ⟨?_, rfl⟩⟩
  · simp [event_listener, unbounded_channel, UnboundedSender.send, hm]
  · exact heng _ hfresh
  · simp [event_listener, unbounded_channel, UnboundedSender.send, hm]

/-- Witness for C7 at a concrete call. -/
theorem c7_event_listener_stream_witness :
    (World.mk true [] 0 : World Unit).WF ∧
    ((event_listener (BeaconConsensusEngineHandle.new ⟨0⟩)
        (World.mk true [] 0 : World Unit)).1 = UnboundedReceiverStream.mk 0 ∧
      ((World.mk true [] 0 : World Unit).mailOpen = false →
        (event_listener (BeaconConsensusEngineHandle.new ⟨0⟩)
          (World.mk true [] 0 : World Unit)).2.queue
            = (World.mk true [] 0 : World Unit).queue ∧
        (EngineSendsOnlyRegistered (World.mk true [] 0 : World Unit).queue
            (fun _ => [BeaconConsensusEngineEvent.mk 4]) →
          (event_listener (BeaconConsensusEngineHandle.new ⟨0⟩)
            (World.mk true [] 0 : World Unit)).1.produced
              (fun _ => [BeaconConsensusEngineEvent.mk 4]) = [])) ∧
      ((World.mk true [] 0 : World Unit).mailOpen = true →
        (event_listener (BeaconConsensusEngineHandle.new ⟨0⟩)
          (World.mk true [] 0 : World Unit)).2.queue
            = (World.mk true [] 0 : World Unit).queue
                ++ [BeaconEngineMessage.EventListener 0] ∧
        (event_listener (BeaconConsensusEngineHandle.new ⟨0⟩)
          (World.mk true [] 0 : World Unit)).1.produced
            (fun _ => [BeaconConsensusEngineEvent.mk 4])
          = (fun _ => [BeaconConsensusEngineEvent.mk 4]) 0)) :=
  ⟨by decide, c7_event_listener_stream _ _ _ (by decide)⟩

/-- Claim C8: every public operation of the handle except the constructor
performs exactly one send onto the shared mailbox per invocation (the
message is appended exactly once when the mailbox is open, and the queue is
untouched when it is closed), every reply-expecting request carries exactly
one correlation channel whose identifier is created fresh at call time
(it occurs in no previously delivered message), and well-formedness is
preserved so identifiers are never reused across requests. -/
theorem c8_one_send_fresh_channels {A : Type}
    (h : BeaconConsensusEngineHandle A) (w : World A)
    (payload : ExecutionPayload) (cancun_fields : Option CancunPayloadFields)
    (state : ForkchoiceState) (payload_attrs : Option A)
    (engineWriteNP : Option (Except BeaconOnNewPayloadError PayloadStatus))
    (engineWriteA : Option (RethResult OnForkChoiceUpdated))
    (engineWriteB : Option ForkchoiceUpdated) (hwf : w.WF) :
    FreshTx w ∧
    (OneSend w (new_payload h w payload cancun_fields engineWriteNP).2
        (BeaconEngineMessage.NewPayload payload cancun_fields w.nextId) ∧
      (new_payload h w payload cancun_fields engineWriteNP).2.WF) ∧
    (OneSend w (fork_choice_updated h w state payload_attrs engineWriteA
          engineWriteB).2
        (BeaconEngineMessage.ForkchoiceUpdated state payload_attrs w.nextId) ∧
      (fork_choice_updated h w state payload_attrs engineWriteA
          engineWriteB).2.WF) ∧
    (OneSend w (transition_configuration_exchanged h w).2
        BeaconEngineMessage.TransitionConfigurationExchanged ∧
      (transition_configuration_exchanged h w).2.WF) ∧
    (OneSend w (event_listener h w).2
        (BeaconEngineMessage.EventListener w.nextId) ∧
      (event_listener h w).2.WF) := by
  have hfresh : FreshTx w := fun m hm hc => Nat.lt_irrefl _ (hwf m hm _ hc)
  have honesend : ∀ m : BeaconEngineMessage A,
      OneSend w (h.to_engine.send { w with nextId := w.nextId + 1 } m).1 m := by
    intro m
    refine ⟨fun hm => ?_, fun hm => ?_⟩ <;>
      simp [UnboundedSender.send, hm]
  have honesend0 : OneSend w
      (h.to_engine.send w BeaconEngineMessage.TransitionConfigurationExchanged).1
      BeaconEngineMessage.TransitionConfigurationExchanged := by
    refine ⟨fun hm => ?_, fun hm => ?_⟩ <;>
      simp [UnboundedSender.send, hm]
  have hwfTCE :
      (h.to_engine.send w BeaconEngineMessage.TransitionConfigurationExchanged).1.WF := by
    by_cases hb : w.mailOpen = true
    · simp only [UnboundedSender.send, if_pos hb]
      intro m2 hm2 c hc
      rcases List.mem_append.mp hm2 with h1 | h1
      · exact hwf m2 h1 c hc
      · cases List.mem_singleton.mp h1
        simp [BeaconEngineMessage.chanIds] at hc
    · simp only [UnboundedSender.send, if_neg hb]
      exact hwf
  have hsingle : ∀ m : BeaconEngineMessage A, m.chanIds = [w.nextId] →
      ∀ c ∈ m.chanIds, c ≤ w.nextId := by
    intro m hm c hc
    rw [hm] at hc
    exact le_of_eq (List.mem_singleton.mp hc)
  refine ⟨hfresh, ⟨honesend _, ?_⟩, ⟨honesend _, ?_⟩, ⟨honesend0, hwfTCE⟩,
    ⟨honesend _, ?_⟩⟩
  · exact WF_after_send_alloc _ _ _ hwf (hsingle _ rfl)
  · exact WF_after_send_alloc _ _ _ hwf (hsingle _ rfl)
  · exact WF_after_send_alloc _ _ _ hwf (hsingle _ rfl)

/-- Witness for C8 at a concrete call. -/
theorem c8_one_send_fresh_channels_witness :
    (World.mk true [] 0 : World Unit).WF ∧
    (FreshTx (World.mk true [] 0 : World Unit) ∧
      (OneSend (World.mk true [] 0 : World Unit)
          (new_payload (BeaconConsensusEngineHandle.new ⟨0⟩)
            (World.mk true [] 0 : World Unit) (ExecutionPayload.mk 7) none
            none).2
          (BeaconEngineMessage.NewPayload (ExecutionPayload.mk 7) none 0) ∧
        (new_payload (BeaconConsensusEngineHandle.new ⟨0⟩)
          (World.mk true [] 0 : World Unit) (ExecutionPayload.mk 7) none
          none).2.WF) ∧
      (OneSend (World.mk true [] 0 : World Unit)
          (fork_choice_updated (BeaconConsensusEngineHandle.new ⟨0⟩)
            (World.mk true [] 0 : World Unit) (ForkchoiceState.mk 1 2 3) none
            none none).2
          (BeaconEngineMessage.ForkchoiceUpdated (ForkchoiceState.mk 1 2 3)
            none 0) ∧
        (fork_choice_updated (BeaconConsensusEngineHandle.new ⟨0⟩)
          (World.mk true [] 0 : World Unit) (ForkchoiceState.mk 1 2 3) none
          none none).2.WF) ∧
      (OneSend (World.mk true [] 0 : World Unit)
          (transition_configuration_exchanged
            (BeaconConsensusEngineHandle.new ⟨0⟩)
            (World.mk true [] 0 : World Unit)).2
          BeaconEngineMessage.TransitionConfigurationExchanged ∧
        (transition_configuration_exchanged
          (BeaconConsensusEngineHandle.new ⟨0⟩)
          (World.mk true [] 0 : World Unit)).2.WF) ∧
      (OneSend (World.mk true [] 0 : World Unit)
          (event_listener (BeaconConsensusEngineHandle.new ⟨0⟩)
            (World.mk true [] 0 : World Unit)).2
          (BeaconEngineMessage.EventListener 0) ∧
        (event_listener (BeaconConsensusEngineHandle.new ⟨0⟩)
          (World.mk true [] 0 : World Unit)).2.WF)) :=
  ⟨by decide, c8_one_send_fresh_channels _ _ _ _ _ _ _ _ _ (by decide)⟩

/-- Claim C9: cloning a handle produces a handle holding a clone of the same
mailbox sender and nothing else, so every operation invoked through the
clone behaves exactly as through the original, on every argument. -/
theorem c9_clone_observationally_equivalent {A : Type}
    (h : BeaconConsensusEngineHandle A) :
    h.clone = h ∧
    (∀ (w : World A) payload cancun_fields engineWriteA,
      new_payload h.clone w payload cancun_fields engineWriteA
        = new_payload h w payload cancun_fields engineWriteA) ∧
    (∀ (w : World A) state payload_attrs engineWriteA engineWriteB,
      fork_choice_updated h.clone w state payload_attrs engineWriteA
          engineWriteB
        = fork_choice_updated h w state payload_attrs engineWriteA
          engineWriteB) ∧
    (∀ w : World A, transition_configuration_exchanged h.clone w
        = transition_configuration_exchanged h w) ∧
    (∀ w : World A, event_listener h.clone w = event_listener h w) :=
  ⟨rfl, fun _ _ _ _ => rfl, fun _ _ _ _ _ => rfl, fun _ => rfl, fun _ => rfl⟩

/-- Claim C10: a failed send onto a closed mailbox is discarded rather than
reported directly; the message with the producer half of the fresh
correlation channel is dropped, so the subsequent await fails, and a closed
mailbox surfaces as exactly the same EngineUnavailable result as an engine
task that received the request and dropped the channel; the queue is left
untouched, and the model resolves (it does not suspend) in both cases. -/
theorem c10_closed_mailbox_indistinguishable {A : Type}
    (h : BeaconConsensusEngineHandle A) (q : List (BeaconEngineMessage A))
    (n : ChanId) (payload : ExecutionPayload)
    (cancun_fields : Option CancunPayloadFields) (state : ForkchoiceState)
    (payload_attrs : Option A)
    (engineWriteNP : Option (Except BeaconOnNewPayloadError PayloadStatus))
    (engineWriteA : Option (RethResult OnForkChoiceUpdated))
    (engineWriteB : Option ForkchoiceUpdated) :
    (new_payload h (World.mk false q n) payload cancun_fields engineWriteNP).1
      = .error BeaconOnNewPayloadError.EngineUnavailable ∧
    (new_payload h (World.mk false q n) payload cancun_fields engineWriteNP).1
      = (new_payload h (World.mk true q n) payload cancun_fields none).1 ∧
    (new_payload h (World.mk false q n) payload cancun_fields
        engineWriteNP).2.queue = q ∧
    (fork_choice_updated h (World.mk false q n) state payload_attrs
        engineWriteA engineWriteB).1
      = .error BeaconForkChoiceUpdateError.EngineUnavailable ∧
    (fork_choice_updated h (World.mk false q n) state payload_attrs
        engineWriteA engineWriteB).1
      = (fork_choice_updated h (World.mk true q n) state payload_attrs none
          engineWriteB).1 ∧
    (fork_choice_updated h (World.mk false q n) state payload_attrs
        engineWriteA engineWriteB).2.queue = q :=
  ⟨rfl, rfl, rfl, rfl, rfl, rfl⟩
